import Mathlib

/-!
Shallow embedding of the make-it-heavy orchestration core
(`orchestrator.py`, `agent.py`).

LLM calls, agent construction and tool execution are modelled as oracles:
values (or streams of values) describing every possible outcome of the
external call, including raised exceptions.  Exceptions are modelled with
`Except Err`; a Python `try/except Exception` handler becomes a `match` on
the `Except` value.  The definitions follow the control flow of the source
line by line; time is abstract (each worker has a wall-clock duration, and
the shared batch timeout compares against it).
-/

namespace MakeItHeavy

/-- Python exception values, at the granularity the code branches on. -/
inductive Err where
  | providerError (msg : String)
  | keyError (key : String)
  | indexError
  | timeoutError
  | exc (msg : String)
deriving DecidableEq, Repr

/-- Models `str(e)` on a caught exception, used when error text is
interpolated into a result record. -/
def Err.msg : Err → String
  | .providerError m => m
  | .keyError k => k
  | .indexError => "list index out of range"
  | .timeoutError => "timeout"
  | .exc m => m

/-- Composite outcome of the decomposition step of
`TaskOrchestrator.decompose_task` (orchestrator.py lines 157-188):
construct the question agent, call `question_agent.run`, and
`json.loads` the reply.
`raiseErr` is any exception other than `json.JSONDecodeError`/`ValueError`
(for example a provider error from the LLM call, or agent-construction
failure) — the `except` clause at line 189 does not catch those.
`malformed` is a reply that fails JSON parsing (`json.JSONDecodeError`).
`parsed qs` is a reply that parses to the JSON array `qs`. -/
inductive DecompOutcome where
  | raiseErr (e : Err)
  | malformed
  | parsed (qs : List String)
deriving DecidableEq, Repr

/-- The four hardcoded fallback templates of orchestrator.py lines 191-196. -/
def fallback_templates (user_input : String) : List String :=
  [ "Research comprehensive information about: " ++ user_input,
    "Analyze and provide insights about: " ++ user_input,
    "Find alternative perspectives on: " ++ user_input,
    "Verify and cross-check facts about: " ++ user_input ]

/-- The fallback value actually returned: the list literal sliced with
`[:num_agents]` (orchestrator.py line 196). -/
def fallback_questions (user_input : String) (num_agents : Nat) : List String :=
  (fallback_templates user_input).take num_agents

/-- Embedding of `TaskOrchestrator.decompose_task` (orchestrator.py
lines 157-196) over a decomposition oracle.  The `try` block catches only
`json.JSONDecodeError` and `ValueError` (the wrong-length check at line 185
raises `ValueError`); any other exception propagates. -/
def decompose_task (outcome : DecompOutcome) (user_input : String)
    (num_agents : Nat) : Except Err (List String) :=
  match outcome with
  | .raiseErr e => .error e
  | .malformed => .ok (fallback_questions user_input num_agents)
  | .parsed qs =>
      if qs.length = num_agents then .ok qs
      else .ok (fallback_questions user_input num_agents)

/-- The decomposition outcomes on which the fallback path of
orchestrator.py lines 189-196 is taken. -/
def decompTakesFallback (outcome : DecompOutcome) (num_agents : Nat) : Prop :=
  outcome = .malformed ∨ ∃ qs, outcome = .parsed qs ∧ qs.length ≠ num_agents

/-- A worker result record as built by `TaskOrchestrator.run_agent_parallel`
(orchestrator.py lines 238-245 and 257-264).  Costs are modelled as
rationals. -/
structure AgentRecord where
  agent_id : Int
  status : String
  response : String
  execution_time : Nat
  model : String
  estimated_cost : Rat
deriving DecidableEq, Repr

/-- Oracle for one worker body (orchestrator.py lines 211-245):
`earlyErr e` — an exception raised before `agent_model` was assigned
(inside `update_agent_progress` or `_get_agent_model`);
`withModel model res cost` — `_get_agent_model` returned `model`, and
`res` is the outcome of agent creation plus `agent.run(subtask)`
(`_create_agent_with_model` can itself raise when even its fallback
construction fails); `cost` is the value of `_estimate_agent_cost`,
which never raises (it has its own internal handler returning 0.0). -/
inductive WorkerOutcome where
  | earlyErr (e : Err)
  | withModel (model : String) (res : Except Err String) (cost : Rat)

/-- The error message built at orchestrator.py lines 249-252. -/
def agentErrorMessage (agent_id : Int) (model : Option String) (e : Err) : String :=
  "Agent " ++ toString agent_id ++ " error" ++
    (match model with
     | some m => " (model: " ++ m ++ ")"
     | none => "") ++ ": " ++ e.msg

/-- Embedding of `TaskOrchestrator.run_agent_parallel` (orchestrator.py
lines 205-264).  The `try` at line 211 wraps the whole body and
`except Exception` at line 247 turns every failure into an error record,
so the function is total: it returns an `AgentRecord`, never an exception.
`duration` is the wall-clock time of `agent.run` (`execution_time` on
success; the error record uses the literal 0). -/
def run_agent_parallel (outcome : WorkerOutcome) (duration : Nat)
    (agent_id : Int) (subtask : String) : AgentRecord :=
  match outcome with
  | .withModel model (.ok response) cost =>
      { agent_id := agent_id, status := "success", response := response,
        execution_time := duration, model := model, estimated_cost := cost }
  | .withModel model (.error e) _ =>
      { agent_id := agent_id, status := "error",
        response := agentErrorMessage agent_id (some model) e,
        execution_time := 0, model := model, estimated_cost := 0 }
  | .earlyErr e =>
      { agent_id := agent_id, status := "error",
        response := agentErrorMessage agent_id none e,
        execution_time := 0, model := "unknown", estimated_cost := 0 }

/-- The parsed `tool_call.function.arguments` dictionary, restricted to the
two keys the code reads (agent.py lines 198-201 and 225-229). -/
structure ArgsDict where
  completion_message : Option String
  task_summary : Option String
deriving DecidableEq, Repr

/-- One tool call in an assistant message.  `args = none` models
`json.loads(tool_call.function.arguments)` raising (the surrounding
`try ... except: pass` then appends nothing). -/
structure ToolCall where
  name : String
  args : Option ArgsDict
deriving DecidableEq, Repr

/-- One assistant message from the completion endpoint:
`content` (`none` models Python `None`) and the list of tool calls
(the empty list models both a missing and an empty `tool_calls`). -/
structure AssistantMessage where
  content : Option String
  tool_calls : List ToolCall
deriving DecidableEq, Repr

/-- The `completion_message` / `task_summary` extraction of agent.py
lines 198-201 (and identically lines 225-229). -/
def extractFinalMessage : Option ArgsDict → Option String
  | none => none
  | some d =>
      match d.completion_message with
      | some c => some c
      | none => d.task_summary

/-- Python truthiness of `assistant_message.content`
(`None` and the empty string are falsy). -/
def contentTruthy : Option String → Bool
  | some c => c ≠ ""
  | none => false

/-- The check `tool_call.function.name == "mark_task_complete"`. -/
def isMarkTaskComplete (tc : ToolCall) : Bool := tc.name == "mark_task_complete"

/-- Content captured from one assistant message into
`full_response_content` (agent.py lines 189-204): the content itself when
truthy; otherwise, when tool calls exist, the extracted completion
message of every `mark_task_complete` call. -/
def captureContent (m : AssistantMessage) : List String :=
  if contentTruthy m.content then [m.content.getD ""]
  else if m.tool_calls.isEmpty then []
  else (m.tool_calls.filter isMarkTaskComplete).filterMap
        (fun tc => extractFinalMessage tc.args)

/-- The fixed message of agent.py line 245. -/
def stuckMessage : String :=
  "Maximum iterations reached. The agent may be stuck in a loop."

/-- The return value at the iteration cap (agent.py line 245). -/
def joinedOrStuck (acc : List String) : String :=
  if acc.isEmpty then stuckMessage else String.intercalate "\n\n" acc

/-- Embedding of the `while iteration < max_iterations` loop of
`UniversalAgent.run` (agent.py lines 168-245).  The oracle maps the
iteration index to the outcome of `call_llm` (which re-raises provider
errors, agent.py lines 84-99); the `messages` list the code maintains
feeds back only into `call_llm`, which the indexed oracle abstracts.
Returns the result together with the final value of `iteration`
(the number of completion calls made).  On a `mark_task_complete` tool
call the loop appends the extracted completion message once more (after
`captureContent` already extracted it when content was falsy, agent.py
lines 193-204 and 223-231) and returns. -/
def runLoop (oracle : Nat → Except Err AssistantMessage) (iteration : Nat)
    (remaining : Nat) (acc : List String) : Except Err String × Nat :=
  match remaining with
  | 0 => (.ok (joinedOrStuck acc), iteration)
  | r + 1 =>
      match oracle iteration with
      | .error e => (.error e, iteration + 1)
      | .ok m =>
          let acc2 := acc ++ captureContent m
          match m.tool_calls.find? isMarkTaskComplete with
          | some tc =>
              (.ok (String.intercalate "\n\n"
                      (acc2 ++ (extractFinalMessage tc.args).toList)),
               iteration + 1)
          | none => runLoop oracle (iteration + 1) r acc2

/-- `UniversalAgent.run`: the loop starting at iteration 0 with an empty
`full_response_content`, bounded by `max_iterations`
(default 10, from `agent_config.get` at agent.py line 162). -/
def agentRun (oracle : Nat → Except Err AssistantMessage)
    (max_iterations : Nat) : Except Err String :=
  (runLoop oracle 0 max_iterations []).1

/-- The number of completion calls `UniversalAgent.run` makes. -/
def agentRunCalls (oracle : Nat → Except Err AssistantMessage)
    (max_iterations : Nat) : Nat :=
  (runLoop oracle 0 max_iterations []).2

/-- The content accumulated over oracle answers `start, ..., start+len-1`
when no early exit happens. -/
def accumulatedFrom (oracle : Nat → Except Err AssistantMessage)
    (start len : Nat) : List String :=
  (List.range' start len).flatMap
    (fun i => match oracle i with
      | .ok m => captureContent m
      | .error _ => [])

/-- The content accumulated over the first `n` oracle answers. -/
def accumulatedContent (oracle : Nat → Except Err AssistantMessage)
    (n : Nat) : List String :=
  accumulatedFrom oracle 0 n

/-- The oracle answer at one iteration returns normally and contains no
`mark_task_complete` tool call. -/
def okNoComplete (r : Except Err AssistantMessage) : Prop :=
  ∃ m, r = .ok m ∧ m.tool_calls.find? isMarkTaskComplete = none

/-- A tool schema, restricted to the name the code inspects. -/
structure ToolSchema where
  name : String
deriving DecidableEq, Repr

/-- The no-op placeholder tool of agent.py lines 66-78. -/
def dummy_tool : ToolSchema := ⟨"dummy_tool"⟩

/-- The request parameters built by `call_llm`
(`model`, `messages` elided, and the optional `tools` key). -/
structure ApiParams where
  model : String
  tools : Option (List ToolSchema)
deriving DecidableEq, Repr

/-- Embedding of the parameter construction in `UniversalAgent.call_llm`
(agent.py lines 54-80): for provider type `deepseek` the `tools` key is
always set, to the real tool list when non-empty and to the singleton
dummy tool otherwise; for other providers `tools` is set only when the
real list is non-empty. -/
def call_llm_params (provider_type : String) (model : String)
    (tools : List ToolSchema) : ApiParams :=
  if provider_type == "deepseek" then
    if tools.isEmpty then { model := model, tools := some [dummy_tool] }
    else { model := model, tools := some tools }
  else
    if tools.isEmpty then { model := model, tools := none }
    else { model := model, tools := some tools }

/-- Oracle for the synthesis step of `_aggregate_consensus`:
`create` is the composite outcome of obtaining a synthesis agent
(orchestrator.py lines 352-364 — `_create_agent_with_model(-1, ...)`
including its internal fallback, plus the outer `except` fallback
`UniversalAgent(...)`, whose own failure propagates);
`run` is the outcome of `synthesis_agent.run(synthesis_prompt)`
(orchestrator.py line 410). -/
structure SynthOracle where
  create : Except Err Unit
  run : Except Err String

/-- The concatenation fallback of orchestrator.py lines 426-432:
for each response (1-indexed) a header, the response, and an empty
line, joined with newlines. -/
def aggregate_fallback (responses : List String) : String :=
  String.intercalate "\n"
    (responses.enum.flatMap
      (fun p => ["=== Agent " ++ toString (p.1 + 1) ++ " Response ===", p.2, ""]))

/-- Embedding of `TaskOrchestrator._aggregate_consensus`
(orchestrator.py lines 342-432).  With exactly one response it returns it
before any agent is created or called (lines 346-347).  Otherwise a
synthesis agent is obtained (an exception there propagates), the prompt
is built and tools are stripped (pure bookkeeping abstracted by the run
oracle), and `synthesis_agent.run` is attempted; on any exception the
concatenation fallback is returned (lines 420-432). -/
def aggregate_consensus (o : SynthOracle) (responses : List String) :
    Except Err String :=
  if responses.length = 1 then .ok (responses.headD "")
  else
    match o.create with
    | .error e => .error e
    | .ok _ =>
        match o.run with
        | .ok final_answer => .ok final_answer
        | .error _ => .ok (aggregate_fallback responses)

/-- The filter at orchestrator.py line 314. -/
def successful_results (agent_results : List AgentRecord) : List AgentRecord :=
  agent_results.filter (fun r => r.status == "success")

/-- Embedding of `TaskOrchestrator.aggregate_results` (orchestrator.py
lines 309-340).  With no successful result the fixed failure string is
returned; otherwise the successful responses are extracted in order and
consensus aggregation is applied — for the configured strategy and,
via the `else` branch at lines 338-340, for every other strategy value
as well. -/
def aggregate_results (o : SynthOracle) (aggregation_strategy : String)
    (agent_results : List AgentRecord) : Except Err String :=
  let succ := successful_results agent_results
  if succ.isEmpty then
    .ok "All agents failed to provide results. Please try again."
  else
    let responses := succ.map (fun r => r.response)
    if aggregation_strategy == "consensus" then aggregate_consensus o responses
    else aggregate_consensus o responses

/-- The `orchestrator:` block of the YAML configuration, restricted to the
three keys `TaskOrchestrator.__init__` subscripts (orchestrator.py
lines 22-24); `none` models a missing key. -/
structure OrchestratorBlock where
  parallel_agents : Option Nat
  task_timeout : Option Nat
  aggregation_strategy : Option String
deriving DecidableEq, Repr

/-- The settings the constructor stores. -/
structure OrchestratorSettings where
  num_agents : Nat
  task_timeout : Nat
  aggregation_strategy : String
deriving DecidableEq, Repr

/-- A Python dict subscript `d[key]`: raises `KeyError` when missing. -/
def getKey {α : Type} (o : Option α) (key : String) : Except Err α :=
  match o with
  | some v => .ok v
  | none => .error (.keyError key)

/-- Embedding of the three configuration reads in
`TaskOrchestrator.__init__` (orchestrator.py lines 22-24), in source
order.  The constructor makes no LLM call: this definition consults no
oracle. -/
def orchestrator_init (block : OrchestratorBlock) :
    Except Err OrchestratorSettings :=
  match getKey block.parallel_agents "parallel_agents" with
  | .error e => .error e
  | .ok pa =>
      match getKey block.task_timeout "task_timeout" with
      | .error e => .error e
      | .ok tt =>
          match getKey block.aggregation_strategy "aggregation_strategy" with
          | .error e => .error e
          | .ok st =>
              .ok { num_agents := pa, task_timeout := tt,
                    aggregation_strategy := st }

/-- Oracle for one whole `orchestrate` call: the decomposition outcome,
per-worker outcomes and wall-clock durations, and the synthesis oracle. -/
structure OrchOracle where
  decomp : DecompOutcome
  worker : Nat → WorkerOutcome
  workerTime : Nat → Nat
  synth : SynthOracle

/-- The future-submission dict comprehension of orchestrator.py
lines 526-529: it evaluates `subtasks[i]` for `i in range(num_agents)` in
the main thread, so it raises `IndexError` as soon as some `i` is out of
range (which happens when decomposition returned fewer than `num_agents`
subtasks). -/
def submitTasks (subtasks : List String) (num_agents : Nat) :
    Except Err (List (Nat × String)) :=
  if num_agents ≤ subtasks.length then
    .ok ((List.range num_agents).map (fun i => (i, subtasks.getD i "")))
  else .error .indexError

/-- Embedding of `TaskOrchestrator.orchestrate` (orchestrator.py
lines 499-559).  `as_completed(future_to_agent, timeout=self.task_timeout)`
raises `concurrent.futures.TimeoutError` from the iterator itself — at the
`for` statement of line 532, outside the `try` of line 533 — whenever some
worker has not finished within the timeout; the inner
`except Exception` (lines 536-543, the one that would append
status-`"timeout"` records) guards only `future.result()`, which never
raises because `run_agent_parallel` is total.  When every worker finishes
in time, all records are collected and then sorted by `agent_id`
(line 546); since worker `i` produces the record with `agent_id = i`, the
sorted list is the records in index order.  The `finally` block only
stops cost monitoring and is elided. -/
def orchestrate (settings : OrchestratorSettings) (o : OrchOracle)
    (user_input : String) : Except Err String :=
  match decompose_task o.decomp user_input settings.num_agents with
  | .error e => .error e
  | .ok subtasks =>
      match submitTasks subtasks settings.num_agents with
      | .error e => .error e
      | .ok tasks =>
          if (List.range settings.num_agents).all
              (fun i => o.workerTime i ≤ settings.task_timeout) then
            aggregate_results o.synth settings.aggregation_strategy
              (tasks.map (fun t =>
                run_agent_parallel (o.worker t.1) (o.workerTime t.1)
                  (Int.ofNat t.1) t.2))
          else
            .error Err.timeoutError

/-- Concrete oracle: the decomposition LLM call raises a provider error. -/
def oracleDecompRaises : OrchOracle :=
  { decomp := .raiseErr (.providerError "DeepSeek API call failed: rate limit"),
    worker := fun _ => .earlyErr (.exc "unused"),
    workerTime := fun _ => 0,
    synth := { create := .ok (), run := .ok "unused" } }

/-- Concrete oracle: a well-behaved run used to witness the amended C1. -/
def oracleAllGood : OrchOracle :=
  { decomp := .parsed ["q1", "q2"],
    worker := fun i => .withModel "deepseek-chat" (.ok ("answer " ++ toString i)) 0,
    workerTime := fun _ => 3,
    synth := { create := .ok (), run := .ok "synthesized" } }

/-- Concrete oracle: one worker exceeds the batch timeout. -/
def oracleSlowWorker : OrchOracle :=
  { decomp := .parsed ["only question"],
    worker := fun _ => .withModel "deepseek-chat" (.ok "answer") 0,
    workerTime := fun _ => 10,
    synth := { create := .ok (), run := .ok "synthesized" } }

/-- Concrete oracle stream: every completion answer has plain content and
no tool calls. -/
def oracleChatOnly : Nat → Except Err AssistantMessage :=
  fun _ => .ok { content := some "hi", tool_calls := [] }

/-- Concrete records: one failed worker and one successful worker. -/
def recordsOneSuccess : List AgentRecord :=
  [ { agent_id := 0, status := "error", response := "Agent 0 error: boom",
      execution_time := 0, model := "deepseek-chat", estimated_cost := 0 },
    { agent_id := 1, status := "success", response := "the answer",
      execution_time := 3, model := "deepseek-chat", estimated_cost := 0 } ]

/-- Concrete records: two successful workers, in `agent_id` order. -/
def recordsTwoSuccesses : List AgentRecord :=
  [ { agent_id := 0, status := "success", response := "Answer 1",
      execution_time := 2, model := "deepseek-chat", estimated_cost := 0 },
    { agent_id := 1, status := "success", response := "Answer 2",
      execution_time := 3, model := "deepseek-chat", estimated_cost := 0 } ]

/-! Helper lemmas (shared between claims). -/

/-- A string with a non-empty left part stays non-empty after append. -/
theorem append_ne_empty_left (p u : String) (hp : p.data ≠ []) : p ++ u ≠ "" := by
  intro h
  have h2 : p.data ++ u.data = [] := by
    have h3 := congrArg String.data h
    rwa [String.data_append] at h3
  exact hp (List.append_eq_nil.mp h2).1

/-- The sliced fallback list has length min(N, 4). -/
theorem fallback_questions_length (u : String) (n : Nat) :
    (fallback_questions u n).length = min n 4 := by
  simp [fallback_questions, fallback_templates]

/-- Every fallback question is a non-empty string. -/
theorem fallback_questions_ne_empty (u : String) (n : Nat) :
    ∀ q ∈ fallback_questions u n, q ≠ "" := by
  intro q hq
  have hq2 : q ∈ fallback_templates u := List.take_subset _ _ hq
  simp only [fallback_templates, List.mem_cons, List.not_mem_nil, or_false] at hq2
  rcases hq2 with h | h | h | h <;> subst h <;>
    exact append_ne_empty_left _ _ (by decide)

/-- C3 (amended): for every requested count N ≥ 1 and every decomposition
outcome: when the reply parses to a JSON array of exactly N strings,
`decompose_task` returns that array unchanged (N elements); on the
fallback path it returns exactly min(N, 4) strings, each non-empty — so
for N > 4 the result has only 4 elements, not N. -/
theorem decompose_task_count (outcome : DecompOutcome) (user_input : String)
    (num_agents : Nat) (hn : 1 ≤ num_agents) :
    (∀ qs, outcome = .parsed qs → qs.length = num_agents →
        decompose_task outcome user_input num_agents = .ok qs)
    ∧ (decompTakesFallback outcome num_agents →
        decompose_task outcome user_input num_agents =
          .ok (fallback_questions user_input num_agents)
        ∧ (fallback_questions user_input num_agents).length = min num_agents 4
        ∧ ∀ q ∈ fallback_questions user_input num_agents, q ≠ "") := by
  constructor
  · intro qs hqs hlen
    subst hqs
    simp [decompose_task, hlen]
  · intro hf
    refine ⟨?_, fallback_questions_length _ _, fallback_questions_ne_empty _ _⟩
    rcases hf with h | ⟨qs, hqs, hne⟩
    · subst h; rfl
    · subst hqs; simp [decompose_task, hne]

/-- C3 witness: at N = 2 with a malformed reply, the theorem gives the
two-element fallback. -/
theorem decompose_task_count_witness :
    decompose_task DecompOutcome.malformed "t" 2 = .ok (fallback_questions "t" 2)
    ∧ (fallback_questions "t" 2).length = min 2 4 := by
  have h := (decompose_task_count DecompOutcome.malformed "t" 2 (by decide)).2
    (Or.inl rfl)
  exact ⟨h.1, h.2.1⟩

/-- C3 counterexample: requesting N = 5 sub-questions with a malformed
decomposition reply returns a list of 4 strings, not 5. -/
theorem decompose_task_five_gets_four :
    (decompose_task DecompOutcome.malformed "t" 5).map List.length = Except.ok 4
    ∧ (decompose_task DecompOutcome.malformed "t" 5).map List.length ≠
        Except.ok 5 := by
  refine ⟨rfl, ?_⟩
  intro h
  have h2 : (Except.ok 4 : Except Err Nat) = Except.ok 5 := by rw [← h]; rfl
  exact absurd (Except.ok.inj h2) (by decide)

/-- C4 (amended): on the fallback path the result is the first min(N, 4)
elements of the four hardcoded templates — the full four-element list
exactly when N ≥ 4; each returned template contains the user input as a
suffix. -/
theorem decompose_task_fallback_truncates (outcome : DecompOutcome)
    (user_input : String) (num_agents : Nat)
    (hf : decompTakesFallback outcome num_agents) :
    decompose_task outcome user_input num_agents =
      .ok ((fallback_templates user_input).take num_agents)
    ∧ (4 ≤ num_agents →
        decompose_task outcome user_input num_agents =
          .ok (fallback_templates user_input))
    ∧ ∀ q ∈ (fallback_templates user_input).take num_agents,
        ∃ p, q = p ++ user_input := by
  have hbase : decompose_task outcome user_input num_agents =
      .ok (fallback_questions user_input num_agents) := by
    rcases hf with h | ⟨qs, hqs, hne⟩
    · subst h; rfl
    · subst hqs; simp [decompose_task, hne]
  refine ⟨hbase, ?_, ?_⟩
  · intro h4
    rw [hbase]
    unfold fallback_questions
    rw [List.take_of_length_le (by simp [fallback_templates]; omega)]
  · intro q hq
    have hq2 : q ∈ fallback_templates user_input := List.take_subset _ _ hq
    simp only [fallback_templates, List.mem_cons, List.not_mem_nil, or_false] at hq2
    rcases hq2 with h | h | h | h <;> exact ⟨_, h⟩

/-- C4 witness: at N = 7 the fallback returns all four templates. -/
theorem decompose_task_fallback_truncates_witness :
    decompose_task DecompOutcome.malformed "t" 7 = .ok (fallback_templates "t") := by
  exact (decompose_task_fallback_truncates DecompOutcome.malformed "t" 7
    (Or.inl rfl)).2.1 (by decide)

/-- C4 counterexample: at N = 2 the fallback result has two elements, so it
is not the fixed four-element list. -/
theorem decompose_task_fallback_not_always_four :
    (decompose_task DecompOutcome.malformed "t" 2).map List.length = Except.ok 2
    ∧ (decompose_task DecompOutcome.malformed "t" 2).map List.length ≠
        Except.ok 4 := by
  refine ⟨rfl, ?_⟩
  intro h
  have h2 : (Except.ok 2 : Except Err Nat) = Except.ok 4 := by rw [← h]; rfl
  exact absurd (Except.ok.inj h2) (by decide)

/-- C9: for provider type deepseek the request parameters always carry a
non-empty tools array: the real tool list when it is non-empty, and the
injected dummy placeholder when it is empty. -/
theorem deepseek_tools_never_empty (model : String) (tools : List ToolSchema) :
    ∃ ts, (call_llm_params "deepseek" model tools).tools = some ts
      ∧ ts ≠ []
      ∧ (tools = [] → ts = [dummy_tool])
      ∧ (tools ≠ [] → ts = tools) := by
  cases tools with
  | nil =>
      exact ⟨[dummy_tool], rfl, by simp, fun _ => rfl, fun hc => absurd rfl hc⟩
  | cons a as =>
      refine ⟨a :: as, rfl, by simp, ?_, fun _ => rfl⟩
      intro hc
      exact absurd hc (by simp)

/-- C9 witness: with an empty tool list (the synthesis situation) the
deepseek request gets the dummy tool. -/
theorem deepseek_tools_never_empty_witness :
    (call_llm_params "deepseek" "deepseek-chat" []).tools = some [dummy_tool] := by
  obtain ⟨ts, h1, _, h3, _⟩ := deepseek_tools_never_empty "deepseek-chat" []
  rw [h3 rfl] at h1
  exact h1

/-- C10: each of the three orchestrator configuration keys is required: a
missing `parallel_agents`, `task_timeout` or `aggregation_strategy` makes
construction fail with the corresponding `KeyError` (and the constructor
consults no LLM oracle — `orchestrator_init` takes none); yet the stored
strategy value never changes the aggregation result. -/
theorem orchestrator_init_requires_keys (block : OrchestratorBlock) :
    (block.parallel_agents = none →
      orchestrator_init block = .error (.keyError "parallel_agents"))
    ∧ (∀ pa, block.parallel_agents = some pa → block.task_timeout = none →
        orchestrator_init block = .error (.keyError "task_timeout"))
    ∧ (∀ pa tt, block.parallel_agents = some pa → block.task_timeout = some tt →
        block.aggregation_strategy = none →
        orchestrator_init block = .error (.keyError "aggregation_strategy"))
    ∧ (∀ s1 s2 o rs, aggregate_results o s1 rs = aggregate_results o s2 rs) := by
  refine ⟨?_, ?_, ?_, ?_⟩
  · intro h
    simp [orchestrator_init, getKey, h]
  · intro pa h1 h2
    simp [orchestrator_init, getKey, h1, h2]
  · intro pa tt h1 h2 h3
    simp [orchestrator_init, getKey, h1, h2, h3]
  · intro s1 s2 o rs
    simp only [aggregate_results, ite_self]

/-- C10 witness: a block lacking only `aggregation_strategy` fails with
that `KeyError`, and two different strategy strings aggregate equally. -/
theorem orchestrator_init_requires_keys_witness :
    orchestrator_init { parallel_agents := some 4, task_timeout := some 300,
                        aggregation_strategy := none }
      = .error (.keyError "aggregation_strategy")
    ∧ aggregate_results { create := .ok (), run := .ok "s" } "consensus"
        recordsOneSuccess
      = aggregate_results { create := .ok (), run := .ok "s" } "weighted"
        recordsOneSuccess := by
  have h := orchestrator_init_requires_keys
    { parallel_agents := some 4, task_timeout := some 300,
      aggregation_strategy := none }
  exact ⟨h.2.2.1 4 300 rfl rfl rfl,
         h.2.2.2 "consensus" "weighted" _ recordsOneSuccess⟩

/-- C5: with zero success-status results aggregation returns the fixed
failure string; with exactly one it returns that response unchanged, and
the result does not depend on the synthesis oracle at all (no synthesis
LLM call is made). -/
theorem aggregate_zero_one_success (o : SynthOracle) (strategy : String)
    (agent_results : List AgentRecord) :
    (successful_results agent_results = [] →
      aggregate_results o strategy agent_results =
        .ok "All agents failed to provide results. Please try again.")
    ∧ (∀ r, successful_results agent_results = [r] →
        aggregate_results o strategy agent_results = .ok r.response
        ∧ ∀ o2 : SynthOracle,
            aggregate_results o2 strategy agent_results =
              aggregate_results o strategy agent_results) := by
  constructor
  · intro h
    simp [aggregate_results, h]
  · intro r h
    have key : ∀ o3 : SynthOracle,
        aggregate_results o3 strategy agent_results = .ok r.response := by
      intro o3
      simp [aggregate_results, h, aggregate_consensus, ite_self]
    exact ⟨key o, fun o2 => (key o2).trans (key o).symm⟩

/-- C5 witness: one failed and one successful worker; the successful
response is returned verbatim although the synthesis oracle would have
answered with different text. -/
theorem aggregate_zero_one_success_witness :
    aggregate_results { create := .ok (), run := .ok "SYNTH OUTPUT" } "consensus"
      recordsOneSuccess = .ok "the answer" := by
  have h := (aggregate_zero_one_success
      { create := .ok (), run := .ok "SYNTH OUTPUT" } "consensus"
      recordsOneSuccess).2
    { agent_id := 1, status := "success", response := "the answer",
      execution_time := 3, model := "deepseek-chat", estimated_cost := 0 }
    (by rfl)
  exact h.1

/-- C6: with at least two success-status results, a synthesis agent that
was created fine and a synthesis call that raises, aggregation returns
exactly the successful responses under 1-indexed
`=== Agent i Response ===` headers, joined with newlines, in input
order — which is ascending `agent_id` order, as `orchestrate` sorts and
filtering preserves order; the full output string is pinned, so it
contains no synthesis-model output. -/
theorem aggregate_synth_failure_concat (o : SynthOracle) (strategy : String)
    (agent_results : List AgentRecord) (e : Err)
    (hsort : agent_results.Pairwise (fun a b => a.agent_id < b.agent_id))
    (h2 : 2 ≤ (successful_results agent_results).length)
    (hc : o.create = .ok ())
    (hr : o.run = .error e) :
    aggregate_results o strategy agent_results =
      .ok (String.intercalate "\n"
        (((successful_results agent_results).map (fun r => r.response)).enum.flatMap
          (fun p => ["=== Agent " ++ toString (p.1 + 1) ++ " Response ===", p.2, ""])))
    ∧ (successful_results agent_results).Pairwise
        (fun a b => a.agent_id < b.agent_id) := by
  constructor
  · have hne : successful_results agent_results ≠ [] := by
      intro h
      rw [h] at h2
      simp at h2
    have hlen : ((successful_results agent_results).map
        (fun r => r.response)).length ≠ 1 := by
      rw [List.length_map]
      omega
    have hlen2 : (successful_results agent_results).length ≠ 1 := by omega
    simp [aggregate_results, List.isEmpty_iff, hne, aggregate_consensus, hlen,
      hlen2, hc, hr, aggregate_fallback, ite_self]
  · exact hsort.filter _

/-- C6 witness: the spec scenario — two successful answers, synthesis
raises, output is the literal two-block concatenation. -/
theorem aggregate_synth_failure_concat_witness :
    aggregate_results { create := .ok (), run := .error (.exc "boom") } "consensus"
      recordsTwoSuccesses =
      .ok "=== Agent 1 Response ===\nAnswer 1\n\n=== Agent 2 Response ===\nAnswer 2\n" := by
  have h := (aggregate_synth_failure_concat
      { create := .ok (), run := .error (.exc "boom") } "consensus"
      recordsTwoSuccesses (.exc "boom") (by decide) (by decide) rfl rfl).1
  rw [h]
  rfl

/-- C7: `run_agent_parallel` is total — every worker outcome, including any
exception raised during agent creation or the tool-call loop, yields a
result record rather than an exception.  On success the record has
status `success` and the agent response; on any failure it has status
`error`, a response containing the error message, execution time 0 and
estimated cost 0. -/
theorem run_agent_parallel_contract (outcome : WorkerOutcome) (duration : Nat)
    (agent_id : Int) (subtask : String) :
    (∀ model response cost, outcome = .withModel model (.ok response) cost →
        (run_agent_parallel outcome duration agent_id subtask).status = "success"
        ∧ (run_agent_parallel outcome duration agent_id subtask).response = response)
    ∧ (∀ e, (outcome = .earlyErr e ∨
          ∃ model cost, outcome = .withModel model (.error e) cost) →
        (run_agent_parallel outcome duration agent_id subtask).status = "error"
        ∧ (∃ p, (run_agent_parallel outcome duration agent_id subtask).response
              = p ++ e.msg)
        ∧ (run_agent_parallel outcome duration agent_id subtask).execution_time = 0
        ∧ (run_agent_parallel outcome duration agent_id subtask).estimated_cost = 0) := by
  constructor
  · intro model response cost h
    subst h
    exact ⟨rfl, rfl⟩
  · intro e h
    rcases h with h | ⟨model, cost, h⟩ <;> subst h
    · exact ⟨rfl, ⟨_, rfl⟩, rfl, rfl⟩
    · exact ⟨rfl, ⟨_, rfl⟩, rfl, rfl⟩

/-- C7 witness: a worker whose setup raises before the model is known
produces an error record with zero time and cost. -/
theorem run_agent_parallel_contract_witness :
    (run_agent_parallel (.earlyErr (.exc "boom")) 5 0 "q").status = "error"
    ∧ (run_agent_parallel (.earlyErr (.exc "boom")) 5 0 "q").execution_time = 0
    ∧ (run_agent_parallel (.earlyErr (.exc "boom")) 5 0 "q").estimated_cost = 0 := by
  have h := (run_agent_parallel_contract (.earlyErr (.exc "boom")) 5 0 "q").2
    (.exc "boom") (Or.inl rfl)
  exact ⟨h.1, h.2.2.1, h.2.2.2⟩

/-- Unfolding `runLoop` at remaining = 0. -/
theorem runLoop_zero (oracle : Nat → Except Err AssistantMessage)
    (iteration : Nat) (acc : List String) :
    runLoop oracle iteration 0 acc = (.ok (joinedOrStuck acc), iteration) := rfl

/-- Step of `runLoop` when the completion call raises. -/
theorem runLoop_succ_error (oracle : Nat → Except Err AssistantMessage)
    (iteration r : Nat) (acc : List String) (e : Err)
    (h : oracle iteration = .error e) :
    runLoop oracle iteration (r + 1) acc = (.error e, iteration + 1) := by
  unfold runLoop
  simp only [h]

/-- Step of `runLoop` when the message carries a `mark_task_complete` call. -/
theorem runLoop_succ_complete (oracle : Nat → Except Err AssistantMessage)
    (iteration r : Nat) (acc : List String) (m : AssistantMessage) (tc : ToolCall)
    (h : oracle iteration = .ok m)
    (hf : m.tool_calls.find? isMarkTaskComplete = some tc) :
    runLoop oracle iteration (r + 1) acc =
      (.ok (String.intercalate "\n\n"
        ((acc ++ captureContent m) ++ (extractFinalMessage tc.args).toList)),
       iteration + 1) := by
  unfold runLoop
  simp only [h, hf]

/-- Step of `runLoop` when the message carries no `mark_task_complete`. -/
theorem runLoop_succ_cont (oracle : Nat → Except Err AssistantMessage)
    (iteration r : Nat) (acc : List String) (m : AssistantMessage)
    (h : oracle iteration = .ok m)
    (hf : m.tool_calls.find? isMarkTaskComplete = none) :
    runLoop oracle iteration (r + 1) acc =
      runLoop oracle (iteration + 1) r (acc ++ captureContent m) := by
  conv_lhs => rw [runLoop]
  simp only [h, hf]

/-- The iteration counter never exceeds the cap. -/
theorem runLoop_calls_le (oracle : Nat → Except Err AssistantMessage) :
    ∀ (remaining iteration : Nat) (acc : List String),
      (runLoop oracle iteration remaining acc).2 ≤ iteration + remaining := by
  intro remaining
  induction remaining with
  | zero =>
      intro iteration acc
      rw [runLoop_zero]
      simp
  | succ r ih =>
      intro iteration acc
      cases h : oracle iteration with
      | error e =>
          rw [runLoop_succ_error oracle iteration r acc e h]
          omega
      | ok m =>
          cases hf : m.tool_calls.find? isMarkTaskComplete with
          | some tc =>
              rw [runLoop_succ_complete oracle iteration r acc m tc h hf]
              omega
          | none =>
              rw [runLoop_succ_cont oracle iteration r acc m h hf]
              have := ih (iteration + 1) (acc ++ captureContent m)
              omega

/-- One step of the accumulated-content range. -/
theorem accumulatedFrom_succ (oracle : Nat → Except Err AssistantMessage)
    (start len : Nat) (m : AssistantMessage) (h : oracle start = .ok m) :
    accumulatedFrom oracle start (len + 1) =
      captureContent m ++ accumulatedFrom oracle (start + 1) len := by
  unfold accumulatedFrom
  rw [List.range'_succ]
  simp [h]

/-- When every consulted answer returns and carries no completion call, the
loop runs to the cap and returns the joined accumulated content. -/
theorem runLoop_no_complete (oracle : Nat → Except Err AssistantMessage) :
    ∀ (remaining iteration : Nat) (acc : List String),
      (∀ i, iteration ≤ i → i < iteration + remaining → okNoComplete (oracle i)) →
      runLoop oracle iteration remaining acc =
        (.ok (joinedOrStuck (acc ++ accumulatedFrom oracle iteration remaining)),
         iteration + remaining) := by
  intro remaining
  induction remaining with
  | zero =>
      intro iteration acc _
      rw [runLoop_zero]
      simp [accumulatedFrom]
  | succ r ih =>
      intro iteration acc h
      obtain ⟨m, hm, hfind⟩ := h iteration (Nat.le_refl _) (by omega)
      rw [runLoop_succ_cont oracle iteration r acc m hm hfind]
      rw [ih (iteration + 1) (acc ++ captureContent m)
        (fun i h1 h2 => h i (by omega) (by omega))]
      rw [accumulatedFrom_succ oracle iteration r m hm]
      rw [List.append_assoc]
      have harith : iteration + 1 + r = iteration + (r + 1) := by omega
      rw [harith]

/-- A normal return strictly before the cap implies some consulted answer
carried a `mark_task_complete` call. -/
theorem runLoop_early_ok (oracle : Nat → Except Err AssistantMessage) :
    ∀ (remaining iteration : Nat) (acc : List String) (res : String),
      (runLoop oracle iteration remaining acc).1 = .ok res →
      (runLoop oracle iteration remaining acc).2 < iteration + remaining →
      ∃ i, iteration ≤ i ∧ i < iteration + remaining ∧
        ∃ m, oracle i = .ok m ∧
          (m.tool_calls.find? isMarkTaskComplete).isSome = true := by
  intro remaining
  induction remaining with
  | zero =>
      intro iteration acc res _ hlt
      rw [runLoop_zero] at hlt
      omega
  | succ r ih =>
      intro iteration acc res hok hlt
      cases h : oracle iteration with
      | error e =>
          rw [runLoop_succ_error oracle iteration r acc e h] at hok
          exact absurd hok (by simp)
      | ok m =>
          cases hf : m.tool_calls.find? isMarkTaskComplete with
          | some tc =>
              refine ⟨iteration, Nat.le_refl _, by omega, m, h, ?_⟩
              rw [hf]
              rfl
          | none =>
              rw [runLoop_succ_cont oracle iteration r acc m h hf] at hok hlt
              obtain ⟨i, h1, h2, hm⟩ :=
                ih (iteration + 1) (acc ++ captureContent m) res hok (by omega)
              exact ⟨i, by omega, by omega, hm⟩

/-- C8: the tool-calling loop of `UniversalAgent.run` makes at most
`max_iterations` completion calls and always terminates; when no consulted
answer raises or invokes `mark_task_complete` it runs to the cap and
returns normally with the accumulated content joined by blank lines (or
the fixed stuck-in-loop message when nothing was accumulated), and the
enclosing worker record then has status `success`; a normal return
strictly before the cap happens only when some consulted answer carried a
`mark_task_complete` tool call. -/
theorem agent_run_bounded (oracle : Nat → Except Err AssistantMessage) (n : Nat) :
    agentRunCalls oracle n ≤ n
    ∧ ((∀ i, i < n → okNoComplete (oracle i)) →
        agentRun oracle n = .ok (joinedOrStuck (accumulatedContent oracle n))
        ∧ agentRunCalls oracle n = n)
    ∧ (∀ res, agentRun oracle n = .ok res → agentRunCalls oracle n < n →
        ∃ i, i < n ∧ ∃ m, oracle i = .ok m ∧
          (m.tool_calls.find? isMarkTaskComplete).isSome = true)
    ∧ ((∀ i, i < n → okNoComplete (oracle i)) →
        ∀ (model subtask : String) (cost : Rat) (duration : Nat) (agent_id : Int),
          (run_agent_parallel (.withModel model (agentRun oracle n) cost)
            duration agent_id subtask).status = "success") := by
  have hcap : (∀ i, i < n → okNoComplete (oracle i)) →
      agentRun oracle n = .ok (joinedOrStuck (accumulatedContent oracle n))
      ∧ agentRunCalls oracle n = n := by
    intro h
    have h2 := runLoop_no_complete oracle n 0 []
      (fun i h1 h2 => h i (by omega))
    constructor
    · unfold agentRun
      rw [h2]
      simp [accumulatedContent]
    · unfold agentRunCalls
      rw [h2]
      simp
  refine ⟨?_, hcap, ?_, ?_⟩
  · have := runLoop_calls_le oracle n 0 []
    unfold agentRunCalls
    omega
  · intro res hok hlt
    obtain ⟨i, _, h2, hm⟩ := runLoop_early_ok oracle n 0 [] res hok
      (by unfold agentRunCalls at hlt; omega)
    exact ⟨i, by omega, hm⟩
  · intro h model subtask cost duration agent_id
    rw [(hcap h).1]
    rfl

/-- C8 witness: an oracle that always answers with plain content and no
tool calls runs exactly to the cap of 2 and returns the joined content. -/
theorem agent_run_bounded_witness :
    agentRun oracleChatOnly 2 = .ok "hi\n\nhi"
    ∧ agentRunCalls oracleChatOnly 2 = 2 := by
  have h := (agent_run_bounded oracleChatOnly 2).2.1
    (fun i _ => ⟨{ content := some "hi", tool_calls := [] }, rfl, rfl⟩)
  refine ⟨?_, h.2⟩
  rw [h.1]
  rfl

/-- Consensus aggregation returns a string whenever the synthesis agent
can be created (the single-response path returns even without that). -/
theorem aggregate_consensus_isOk (o : SynthOracle) (responses : List String)
    (hc : o.create = .ok ()) :
    ∃ s, aggregate_consensus o responses = .ok s := by
  unfold aggregate_consensus
  by_cases h1 : responses.length = 1
  · exact ⟨_, by rw [if_pos h1]⟩
  · rw [if_neg h1, hc]
    cases hr : o.run with
    | ok a => exact ⟨a, rfl⟩
    | error e => exact ⟨_, rfl⟩

/-- Aggregation returns a string for every result list whenever the
synthesis agent can be created. -/
theorem aggregate_results_isOk (o : SynthOracle) (strategy : String)
    (rs : List AgentRecord) (hc : o.create = .ok ()) :
    ∃ s, aggregate_results o strategy rs = .ok s := by
  by_cases hemp : (successful_results rs).isEmpty = true
  · exact ⟨_, by simp only [aggregate_results]; rw [if_pos hemp]⟩
  · obtain ⟨s, hs⟩ := aggregate_consensus_isOk o
      ((successful_results rs).map (fun r => r.response)) hc
    refine ⟨s, ?_⟩
    simp only [aggregate_results]
    rw [if_neg hemp, ite_self]
    exact hs

/-- C1 (amended): once constructed, `orchestrate` returns a string for
every oracle behavior provided that (a) the decomposition step —
question-agent construction and its LLM call — does not raise,
(b) decomposition yields at least `num_agents` subtasks (automatic when
the reply parses to the requested length, and on the fallback path when
`num_agents` ≤ 4 — otherwise the submission loop raises `IndexError`),
(c) every worker finishes within `task_timeout`, and (d) the synthesis
agent can be created.  Under those conditions worker failures during
fan-out and synthesis-call failures never propagate: they are absorbed
into error records and the concatenation fallback. -/
theorem orchestrate_returns_string (settings : OrchestratorSettings)
    (o : OrchOracle) (user_input : String)
    (hd : ∀ e, o.decomp ≠ .raiseErr e)
    (hlen : (∃ qs, o.decomp = .parsed qs ∧ qs.length = settings.num_agents)
            ∨ settings.num_agents ≤ 4)
    (ht : ∀ i, i < settings.num_agents → o.workerTime i ≤ settings.task_timeout)
    (hs : o.synth.create = .ok ()) :
    ∃ s, orchestrate settings o user_input = .ok s := by
  obtain ⟨subtasks, hsub, hlen2⟩ :
      ∃ l, decompose_task o.decomp user_input settings.num_agents = .ok l
        ∧ settings.num_agents ≤ l.length := by
    rcases hlen with ⟨qs, hqs, hql⟩ | h4
    · exact ⟨qs, by rw [hqs]; simp [decompose_task, hql], by omega⟩
    · cases hdc : o.decomp with
      | raiseErr e => exact absurd hdc (hd e)
      | malformed =>
          refine ⟨_, rfl, ?_⟩
          rw [fallback_questions_length]
          omega
      | parsed qs =>
          by_cases hq : qs.length = settings.num_agents
          · exact ⟨qs, by simp [decompose_task, hq], by omega⟩
          · refine ⟨fallback_questions user_input settings.num_agents,
              by simp [decompose_task, hq], ?_⟩
            rw [fallback_questions_length]
            omega
  have hall : ((List.range settings.num_agents).all
      (fun i => o.workerTime i ≤ settings.task_timeout)) = true := by
    rw [List.all_eq_true]
    intro i hi
    rw [List.mem_range] at hi
    exact decide_eq_true (ht i hi)
  obtain ⟨s, hs2⟩ := aggregate_results_isOk o.synth settings.aggregation_strategy
    (((List.range settings.num_agents).map (fun i => (i, subtasks.getD i ""))).map
      (fun t => run_agent_parallel (o.worker t.1) (o.workerTime t.1)
        (Int.ofNat t.1) t.2)) hs
  refine ⟨s, ?_⟩
  have hsubmit : submitTasks subtasks settings.num_agents =
      .ok ((List.range settings.num_agents).map (fun i => (i, subtasks.getD i ""))) := by
    unfold submitTasks
    rw [if_pos hlen2]
  unfold orchestrate
  simp only [hsub, hsubmit]
  rw [if_pos hall]
  exact hs2

/-- C1 witness: a fully well-behaved oracle makes `orchestrate` return. -/
theorem orchestrate_returns_string_witness :
    (orchestrate { num_agents := 2, task_timeout := 300,
                   aggregation_strategy := "consensus" }
      oracleAllGood "q").isOk = true := by
  obtain ⟨s, hs⟩ := orchestrate_returns_string
    { num_agents := 2, task_timeout := 300, aggregation_strategy := "consensus" }
    oracleAllGood "q"
    (by intro e h; simp [oracleAllGood] at h)
    (Or.inl ⟨["q1", "q2"], rfl, rfl⟩)
    (by intro i _; show (3 : Nat) ≤ 300; omega)
    rfl
  rw [hs]
  rfl

/-- C1 counterexample: the claim as stated is false — a provider error
raised by the decomposition LLM call propagates out of `orchestrate`
instead of being turned into a returned string. -/
theorem orchestrate_raises_on_decomposition_error :
    orchestrate { num_agents := 2, task_timeout := 300,
                  aggregation_strategy := "consensus" }
      oracleDecompRaises "q" =
      .error (.providerError "DeepSeek API call failed: rate limit") := by
  rfl

/-- C2 (behavior at the failing input): with a single worker slower than
the batch timeout, `as_completed` raises at the `for` statement, outside
the handler that would have produced a status-`"timeout"` record, so
`orchestrate` propagates `TimeoutError` instead of aggregating timeout
records into a returned string. -/
theorem orchestrate_timeout_propagates :
    orchestrate { num_agents := 1, task_timeout := 5,
                  aggregation_strategy := "consensus" }
      oracleSlowWorker "q" = .error Err.timeoutError := by
  rfl

end MakeItHeavy
